import Mathlib

/-!
Shallow embedding of the netlify/integration-cloudinary build-event handlers
(source: the integration's index module) together with models of the external
collaborators it calls (the Path Matcher, the Cloudinary URL resolver and the
HTML rewriter live outside the embedded module and are abstracted as oracle
parameters or modelled from the specification where noted).

JavaScript-specific semantics that matter for the claims are embedded
explicitly: string truthiness (`undefined` and the empty string are falsy),
destructuring defaults (applied only when the value is `undefined`),
`String.prototype.replace` with a string pattern (first occurrence only), and
`Array.prototype.unshift` (insertion at the head of the redirect list).
-/

set_option autoImplicit false

namespace Cloudinary

/-- JS string-or-undefined value: `none` is `undefined`. -/
abbrev JsStr := Option String

/-- JS truthiness for a string-or-undefined value: `undefined` and `""` are falsy. -/
def truthy : JsStr → Bool
  | none => false
  | some s => s != ""

/-- JS falsiness (`!x`) for a string-or-undefined value. -/
def falsy (o : JsStr) : Bool := !truthy o

/-- JS `||` on string-or-undefined values: the left operand when truthy, else the right. -/
def jsOr (a b : JsStr) : JsStr := if truthy a then a else b

/-- JS destructuring default: the declared value unless it is `undefined`. -/
def jsDefault {α : Type} (a : Option α) (b : Option α) : Option α :=
  match a with
  | some x => some x
  | none => b

/-- JS template-literal rendering of a string-or-undefined value
(`undefined` prints as the text "undefined"). -/
def jsTemplate : JsStr → String
  | none => "undefined"
  | some s => s

/-- Replace the first occurrence of `pat` in `s` by nothing
(JS `s.replace(pat, '')` with a string pattern), on character lists. -/
def replaceFirstList (s pat : List Char) : List Char :=
  match s with
  | [] => []
  | c :: rest =>
    if pat.isPrefixOf (c :: rest) then (c :: rest).drop pat.length
    else c :: replaceFirstList rest pat

/-- JS `s.replace(pat, '')` with a string pattern: removes the first occurrence only. -/
def jsReplaceFirst (s pat : String) : String :=
  ⟨replaceFirstList s.toList pat.toList⟩

/-- Collapse runs of consecutive slashes; the Bool records whether the
previous kept character was a slash. -/
def collapseSlashesAux : Bool → List Char → List Char
  | _, [] => []
  | prevSlash, c :: rest =>
    if c = '/' then
      if prevSlash then collapseSlashesAux true rest
      else '/' :: collapseSlashesAux true rest
    else c :: collapseSlashesAux false rest

/-- Model of node `path.join(a, b)` for the dot-free relative segments used by
the handler: concatenate with a separator and collapse duplicate slashes. -/
def pathJoin (a b : String) : String :=
  ⟨collapseSlashesAux false (a.toList ++ '/' :: b.toList)⟩

/-- The process environment variables the handlers read (`process.env.*`);
each is a string or `undefined`. -/
structure Env where
  context : JsStr
  netlifyHost : JsStr
  deployPrimeUrl : JsStr
  siteName : JsStr
  cloudinaryCloudName : JsStr
  cloudinaryApiKey : JsStr
  cloudinaryApiSecret : JsStr
deriving DecidableEq

/-- The `imagesPath` input: the schema accepts a string or an array of strings. -/
inductive ImagesPathCfg where
  | str (s : String)
  | arr (l : List String)
deriving DecidableEq

/-- The build configuration accepted by `buildConfigSchema`
(every field optional; `imagesPath` is a string or an array of strings). -/
structure BuildConfig where
  cloudName : Option String := none
  cname : Option String := none
  deliveryType : Option String := none
  folder : Option String := none
  imagesPath : Option ImagesPathCfg := none
  privateCdn : Option Bool := none
  loadingStrategy : Option String := none
  uploadPreset : Option String := none
deriving DecidableEq

/-- One entry of `CLOUDINARY_ASSET_DIRECTORIES`. -/
structure AssetDirectory where
  name : String
  inputKey : String
  path : String
deriving DecidableEq

/-- `CLOUDINARY_ASSET_DIRECTORIES`: the single configured asset category. -/
def CLOUDINARY_ASSET_DIRECTORIES : List AssetDirectory :=
  [{ name := "images", inputKey := "imagesPath", path := "/images" }]

/-- Modelled from the spec: `PUBLIC_ASSET_PATH`, the CDN-asset-mount namespace
constant imported from the data module (that module is not under src/); its
exact text is opaque to the claims, only its use in building `cldAssetPath`
matters. -/
def PUBLIC_ASSET_PATH : String := "cld-assets"

/-- Modelled from the spec: the fixed user-facing message for a missing
site/folder name (src/data/errors.js is not under src/; the constants are
distinct fixed strings naming the missing value). -/
def ERROR_SITE_NAME_REQUIRED : String :=
  "A folder or site name is required: set the folder input or the SITE_NAME variable"

/-- Modelled from the spec: message for an unknown deploy host under fetch mode. -/
def ERROR_NETLIFY_HOST_UNKNOWN : String :=
  "Can not determine the deploy host: skipping fetch delivery for this run"

/-- Modelled from the spec: follow-up note about local CLI support for the
unknown-host situation. -/
def ERROR_NETLIFY_HOST_CLI_SUPPORT : String :=
  "The deploy host is only available in deployed contexts"

/-- Modelled from the spec: message for a missing CDN account (cloud) name. -/
def ERROR_CLOUD_NAME_REQUIRED : String :=
  "A Cloudinary cloud name is required: set the cloudName input or the CLOUDINARY_CLOUD_NAME variable"

/-- Modelled from the spec: message for missing upload API credentials. -/
def ERROR_API_CREDENTIALS_REQUIRED : String :=
  "Cloudinary API credentials are required for upload delivery"

/-- Modelled from the spec: message for an invalid images path input. -/
def ERROR_INVALID_IMAGES_PATH : String :=
  "Invalid images path: imagesPath must be a string or an array of strings"

/-- What the external `getCloudinaryUrl` resolver returns on success
(the fields the handlers consume). -/
structure CloudinaryResult where
  cloudinaryUrl : String
  publicId : Option String
deriving DecidableEq

/-- The argument object passed to the external `getCloudinaryUrl`. -/
structure ResolveArgs where
  deliveryType : String
  folder : String
  path : String
  localDir : Option String
  uploadPreset : Option String
  remoteHost : Option String
deriving DecidableEq

/-- One resolved asset record cached in `_cloudinaryAssets.images`:
`{ publishPath, ...cloudinary }`. -/
structure AssetRecord where
  publishPath : String
  cloudinaryUrl : String
  publicId : Option String
deriving DecidableEq

/-- The module-level `_cloudinaryAssets` cache (`{ images: ... }`). -/
structure Assets where
  images : List AssetRecord
deriving DecidableEq

/-- A host redirect rule (`netlifyConfig.redirects` entry); `from` is a Lean
keyword so the field is `from_`. -/
structure Redirect where
  from_ : String
  to_ : String
  status : Nat
  force : Bool
deriving DecidableEq

/-- Log levels of the console channel used by the handlers. -/
inductive LogLevel where
  | info
  | warn
  | error
deriving DecidableEq

/-- One console line. -/
abbrev LogEntry := LogLevel × String

/-- The external collaborators of the onBuild handler, abstracted:
`glob` stands for the file matching done by the Path Matcher against a base
directory and one pattern, `getCloudinaryUrl` for the external URL
resolver/uploader (failure = promise rejection carrying a message). -/
structure Oracles where
  glob : String → String → List String
  getCloudinaryUrl : ResolveArgs → Except String CloudinaryResult

/-- The per-invocation inputs of the onBuild handler that come from the host:
the publish directory constant, the redirect list at entry, and the module
cache value at entry (`{ images: [] }` at process start). -/
structure BuildArgs where
  PUBLISH_DIR : String
  redirects : List Redirect
  cloudinaryAssets : Assets
deriving DecidableEq

/-- How a handler run ends: normal return, `utils.build.failPlugin`,
`utils.build.failBuild`, or an uncaught `throw`. -/
inductive Outcome where
  | success
  | failPlugin (msg : String)
  | failBuild (msg : String)
  | thrown (msg : String)
deriving DecidableEq

/-- The observable result of one onBuild run. -/
structure BuildResult where
  outcome : Outcome
  redirects : List Redirect
  assets : Assets
  log : List LogEntry
deriving DecidableEq

/-- `host`: `NETLIFY_HOST` in production context, else `DEPLOY_PRIME_URL`. -/
def hostOf (env : Env) : JsStr :=
  if env.context == some "production" then env.netlifyHost else env.deployPrimeUrl

/-- `deliveryType = 'fetch'` destructuring default. -/
def deliveryTypeOf (cfg : BuildConfig) : String :=
  (cfg.deliveryType).getD "fetch"

/-- `folder = process.env.SITE_NAME` destructuring default. -/
def folderOf (env : Env) (cfg : BuildConfig) : JsStr :=
  jsDefault cfg.folder env.siteName

/-- `imagesPath = CLOUDINARY_ASSET_DIRECTORIES.find(...)?.path` destructuring
default. -/
def imagesPathOf (cfg : BuildConfig) : Option ImagesPathCfg :=
  jsDefault cfg.imagesPath
    ((CLOUDINARY_ASSET_DIRECTORIES.find? (fun d => d.inputKey == "imagesPath")).map
      (fun d => ImagesPathCfg.str d.path))

/-- `cloudName = process.env.CLOUDINARY_CLOUD_NAME || buildConfig.cloudName`. -/
def cloudNameOf (env : Env) (cfg : BuildConfig) : JsStr :=
  jsOr env.cloudinaryCloudName cfg.cloudName

/-- The patterns carried by an images-path input, a single string normalized
to a one-element sequence. -/
def patternsOf : ImagesPathCfg → List String
  | .str s => [s]
  | .arr l => l

/-- Modelled from the spec: the Path Matcher `findAssetsByPath`
(src/lib/util.js is not under src/). Per the spec it normalizes a single
pattern into a one-element sequence, resolves each pattern against the base
directory by glob matching (abstracted as the `globFn` oracle), and returns
the concatenation of the matches; no match yields `[]`, never an error. -/
def findAssetsByPath (globFn : String → String → List String)
    (baseDir : String) (p : ImagesPathCfg) : List String :=
  (patternsOf p).foldr (fun pat acc => globFn baseDir pat ++ acc) []

/-- The argument object built for one discovered image inside the Resolution
Pass: the publish path is the file path with the first occurrence of the
publish directory removed (JS `image.replace(PUBLISH_DIR, '')`). -/
def resolveArgsFor (deliveryType folderStr : String) (uploadPreset : Option String)
    (host : JsStr) (publishDir image : String) : ResolveArgs :=
  { deliveryType := deliveryType, folder := folderStr,
    path := jsReplaceFirst image publishDir, localDir := some publishDir,
    uploadPreset := uploadPreset, remoteHost := host }

/-- The Resolution Pass body inside the `try`: map every discovered file to an
`AssetRecord` whose `publishPath` strips the publish-directory prefix,
calling the external resolver for each; the first rejection aborts the whole
step (`Promise.all`). -/
def resolveImages (resolver : ResolveArgs → Except String CloudinaryResult)
    (deliveryType folderStr : String) (uploadPreset : Option String)
    (host : JsStr) (publishDir : String) :
    List String → Except String (List AssetRecord)
  | [] => .ok []
  | image :: rest =>
    match resolver (resolveArgsFor deliveryType folderStr uploadPreset host publishDir image) with
    | .error e => .error e
    | .ok c =>
      match resolveImages resolver deliveryType folderStr uploadPreset host publishDir rest with
      | .error e => .error e
      | .ok recs =>
        .ok ({ publishPath := jsReplaceFirst image publishDir,
               cloudinaryUrl := c.cloudinaryUrl,
               publicId := c.publicId } :: recs)

/-- The image files discovered by a run: the Path Matcher applied to the
destructured images path (empty when that path is `undefined`, a state the
handler turns into a throw before discovery). -/
def discoveredImagesOf (O : Oracles) (cfg : BuildConfig) (A : BuildArgs) : List String :=
  match imagesPathOf cfg with
  | none => []
  | some ip => findAssetsByPath O.glob A.PUBLISH_DIR ip

/-- The upload-mode redirect rule unshifted for one cached asset. -/
def uploadRule (a : AssetRecord) : Redirect :=
  { from_ := a.publishPath ++ "*", to_ := a.cloudinaryUrl, status := 302, force := true }

/-- Upload-mode emission: `Object.keys(_cloudinaryAssets)` is `["images"]`, and
for each cached record one rule is unshifted in resolution order (each map
callback runs its `unshift` synchronously before its first suspension). -/
def emitUploadRedirects (assets : Assets) (rs : List Redirect) : List Redirect :=
  assets.images.foldl (fun acc a => uploadRule a :: acc) rs

/-- The fetch-mode pass-through rule for one media path (status 200). -/
def passThroughRule (cldAssetPath mediaPath : String) : Redirect :=
  { from_ := cldAssetPath ++ "/*", to_ := mediaPath ++ "/:splat", status := 200, force := true }

/-- The fetch-mode general redirect rule for one media path (status 302). -/
def fetchRule (mediaPath assetRedirectUrl : String) : Redirect :=
  { from_ := mediaPath ++ "/*", to_ := assetRedirectUrl, status := 302, force := true }

/-- Dynamic `buildConfig[inputKey]` lookup for the keys carried by
`CLOUDINARY_ASSET_DIRECTORIES` (only "imagesPath" exists). -/
def cfgDynLookup (cfg : BuildConfig) (key : String) : Option ImagesPathCfg :=
  if key == "imagesPath" then cfg.imagesPath else none

/-- `buildConfig[inputKey] || defaultPath`, then the runtime type check and
single-string normalization: `undefined` and `""` are falsy (default used),
an array is always truthy (even empty). -/
def mediaPathsOf : Option ImagesPathCfg → String → List String
  | none, d => [d]
  | some (.str s), d => if s == "" then [d] else [s]
  | some (.arr l), _ => l

/-- The argument object passed to the external `getCloudinaryUrl` for one
fetch-mode media path: the path is `cldAssetUrl + "/:splat"` where
`cldAssetUrl` is the host followed by the CDN-asset-mount path. -/
def fetchArgsFor (folderStr : String) (uploadPreset : Option String) (host : JsStr)
    (mediaPath : String) : ResolveArgs :=
  { deliveryType := "fetch", folder := folderStr,
    path := (jsTemplate host ++ ("/" ++ pathJoin PUBLIC_ASSET_PATH mediaPath)) ++ "/:splat",
    localDir := none, uploadPreset := uploadPreset, remoteHost := none }

/-- One fetch-mode media-path emission: build `cldAssetPath` and the CDN fetch
URL, then unshift the pass-through rule and on top of it the general redirect.
A resolver rejection here is inside a fire-and-forget `forEach` callback: the
two unshifts for that path simply never run and nothing fails. -/
def fetchEmitOne (resolver : ResolveArgs → Except String CloudinaryResult)
    (folderStr : String) (uploadPreset : Option String) (host : JsStr)
    (mediaPath : String) (rs : List Redirect) : List Redirect :=
  let cldAssetPath := "/" ++ pathJoin PUBLIC_ASSET_PATH mediaPath
  match resolver (fetchArgsFor folderStr uploadPreset host mediaPath) with
  | .error _ => rs
  | .ok r => fetchRule mediaPath r.cloudinaryUrl :: passThroughRule cldAssetPath mediaPath :: rs

/-- Fetch-mode emission over every configured asset directory and each of its
media paths (within one callback the two unshifts are adjacent and in program
order; across paths the model serializes them in list order). -/
def emitFetchRedirects (resolver : ResolveArgs → Except String CloudinaryResult)
    (cfg : BuildConfig) (folderStr : String) (host : JsStr)
    (rs : List Redirect) : List Redirect :=
  CLOUDINARY_ASSET_DIRECTORIES.foldl
    (fun acc dir =>
      let mediaPaths := mediaPathsOf (cfgDynLookup cfg dir.inputKey) dir.path
      mediaPaths.foldl
        (fun acc2 mp => fetchEmitOne resolver folderStr cfg.uploadPreset host mp acc2)
        acc)
    rs

/-- Console tag helper: the handlers log with a "[Cloudinary]" tag. -/
def cloudinaryTag (m : String) : String := "[Cloudinary] " ++ m

/-- The first two log lines of the onBuild handler. -/
def buildLog0 (host : JsStr) : List LogEntry :=
  [(LogLevel.info, "[Cloudinary] Creating redirects..."),
   (LogLevel.info, "[Cloudinary] Using host: " ++ jsTemplate host)]

/-- The warning printed when discovery matched no file. -/
def noImagesMsg (ip : ImagesPathCfg) : String :=
  "[Cloudinary] No image files found in " ++
    (match ip with
     | .str s => s
     | .arr l => String.intercalate "," l)

/-- The follow-up hint after the empty-discovery warning. -/
def MSG_DID_YOU_UPDATE : String :=
  "[Cloudinary] Did you update your images path? You can set the imagesPath input in your Netlify config."

/-- The onBuild handler after the folder and host precondition checks: cloud
name check, upload-credentials check, imagesPath guard, discovery, the guarded
Resolution Pass, and the two mode-specific emission blocks. -/
def onBuildChecked (O : Oracles) (env : Env) (cfg : BuildConfig) (A : BuildArgs) : BuildResult :=
  let host := hostOf env
  let deliveryType := deliveryTypeOf cfg
  let log0 := buildLog0 host
  let cloudName := cloudNameOf env cfg
  if falsy cloudName then
    { outcome := .failBuild ERROR_CLOUD_NAME_REQUIRED, redirects := A.redirects,
      assets := A.cloudinaryAssets,
      log := log0 ++ [(LogLevel.error, cloudinaryTag ERROR_CLOUD_NAME_REQUIRED)] }
  else if (deliveryType == "upload") && (falsy env.cloudinaryApiKey || falsy env.cloudinaryApiSecret) then
    { outcome := .failBuild ERROR_API_CREDENTIALS_REQUIRED, redirects := A.redirects,
      assets := A.cloudinaryAssets,
      log := log0 ++ [(LogLevel.error, cloudinaryTag ERROR_API_CREDENTIALS_REQUIRED)] }
  else
    match imagesPathOf cfg with
    | none =>
      { outcome := .thrown ERROR_INVALID_IMAGES_PATH, redirects := A.redirects,
        assets := A.cloudinaryAssets, log := log0 }
    | some ip =>
      let imagesFiles := findAssetsByPath O.glob A.PUBLISH_DIR ip
      let log1 := log0 ++
        (if imagesFiles.length == 0 then
          [(LogLevel.warn, noImagesMsg ip), (LogLevel.info, MSG_DID_YOU_UPDATE)]
         else [])
      let folderStr := (folderOf env cfg).getD ""
      match resolveImages O.getCloudinaryUrl deliveryType folderStr cfg.uploadPreset host
              A.PUBLISH_DIR imagesFiles with
      | .error e =>
        { outcome := .failBuild e, redirects := A.redirects, assets := A.cloudinaryAssets,
          log := log1 ++ [(LogLevel.error, "Error " ++ e)] }
      | .ok records =>
        let assets1 : Assets := { images := records }
        let rs1 := if deliveryType == "upload" then emitUploadRedirects assets1 A.redirects
                   else A.redirects
        let rs2 := if deliveryType == "fetch" then emitFetchRedirects O.getCloudinaryUrl cfg folderStr host rs1
                   else rs1
        { outcome := .success, redirects := rs2, assets := assets1,
          log := log1 ++ [(LogLevel.info, "[Cloudinary] Done.")] }

/-- The onBuild build-event handler: initial logging, the folder check
(`failPlugin`), the host-unknown soft skip (guarded on fetch mode), then the
rest of the pass. -/
def onBuild (O : Oracles) (env : Env) (cfg : BuildConfig) (A : BuildArgs) : BuildResult :=
  let host := hostOf env
  let deliveryType := deliveryTypeOf cfg
  let folder := folderOf env cfg
  let log0 := buildLog0 host
  if falsy folder then
    { outcome := .failPlugin ERROR_SITE_NAME_REQUIRED, redirects := A.redirects,
      assets := A.cloudinaryAssets, log := log0 }
  else if falsy host && (deliveryType == "fetch") then
    { outcome := .success, redirects := A.redirects, assets := A.cloudinaryAssets,
      log := log0 ++ [(LogLevel.warn, cloudinaryTag ERROR_NETLIFY_HOST_UNKNOWN),
                      (LogLevel.info, cloudinaryTag ERROR_NETLIFY_HOST_CLI_SUPPORT)] }
  else
    onBuildChecked O env cfg A

/-- The context object handed to the external HTML rewriter
`updateHtmlImagesToCloudinary` for every page. -/
structure RewriteContext where
  assets : Assets
  deliveryType : String
  uploadPreset : Option String
  folder : String
  localDir : String
  remoteHost : JsStr
deriving DecidableEq

/-- The external collaborators of the onPostBuild handler, abstracted:
`glob` is `glob.sync` over the publish directory's HTML pattern, `read` is
`fs.readFileSync`, and `updateHtmlImagesToCloudinary` is the external HTML
rewriter, which always returns a rewritten document plus a per-document error
list (per the spec its parsing is tolerant and never throws). -/
structure PostOracles where
  glob : String → List String
  read : String → String
  updateHtmlImagesToCloudinary : String → RewriteContext → String × List String

/-- The observable result of one onPostBuild run: the run outcome, the pages
written back with their new text, the per-page error lists, and the log. -/
structure PostBuildResult where
  outcome : Outcome
  written : List (String × String)
  results : List (String × List String)
  log : List LogEntry
deriving DecidableEq

/-- The first two log lines of the onPostBuild handler. -/
def postLog0 (host : JsStr) : List LogEntry :=
  [(LogLevel.info, "[Cloudinary] Replacing on-page images with Cloudinary URLs..."),
   (LogLevel.info, "[Cloudinary] Using host: " ++ jsTemplate host)]

/-- The error-summary line printed when some documents had rewrite errors. -/
def doneWithErrorsMsg (n : Nat) : String :=
  "[Cloudinary] Done with " ++ toString n ++ " errors..."

/-- Render of the accumulated error report written to the log
(`JSON.stringify(errors, null, 2)` modelled as a plain rendering). -/
def errorsDump (errors : List (String × List String)) : String :=
  toString errors

/-- The rewrite context object built by onPostBuild and passed to the HTML
rewriter for every page. -/
def rewriteContextOf (env : Env) (cfg : BuildConfig) (assetsIn : Assets)
    (publishDir : String) : RewriteContext :=
  { assets := assetsIn, deliveryType := deliveryTypeOf cfg,
    uploadPreset := cfg.uploadPreset, folder := (folderOf env cfg).getD "",
    localDir := publishDir, remoteHost := hostOf env }

/-- `glob.sync` over the publish directory's HTML pattern. -/
def pagesOf (PO : PostOracles) (publishDir : String) : List String :=
  PO.glob (publishDir ++ "/**/*.html")

/-- One page's Rewrite Pass step: read the source, rewrite it, keep the new
text and the per-document error list. -/
def processPage (PO : PostOracles) (ctx : RewriteContext) (page : String) :
    String × String × List String :=
  (page, PO.updateHtmlImagesToCloudinary (PO.read page) ctx)

/-- The per-page results of the Rewrite Pass: page paired with its error list. -/
def postResultsOf (PO : PostOracles) (env : Env) (cfg : BuildConfig)
    (assetsIn : Assets) (publishDir : String) : List (String × List String) :=
  (((pagesOf PO publishDir).map
      (processPage PO (rewriteContextOf env cfg assetsIn publishDir))).map
    (fun pr => (pr.1, pr.2.2)))

/-- The pages written back with their rewritten text. -/
def postWrittenOf (PO : PostOracles) (env : Env) (cfg : BuildConfig)
    (assetsIn : Assets) (publishDir : String) : List (String × String) :=
  (((pagesOf PO publishDir).map
      (processPage PO (rewriteContextOf env cfg assetsIn publishDir))).map
    (fun pr => (pr.1, pr.2.1)))

/-- The documents whose rewrite reported at least one error. -/
def postErrorsOf (PO : PostOracles) (env : Env) (cfg : BuildConfig)
    (assetsIn : Assets) (publishDir : String) : List (String × List String) :=
  (postResultsOf PO env cfg assetsIn publishDir).filter (fun pr => pr.2.length > 0)

/-- The onPostBuild build-event handler: the same precondition checks as
onBuild minus the host-unknown skip, then the Rewrite Pass over every HTML
document under the publish directory, writing each document back and
accumulating per-document error lists; a non-zero error count is only
summarized in the log. -/
def onPostBuild (PO : PostOracles) (env : Env) (cfg : BuildConfig)
    (assetsIn : Assets) (publishDir : String) : PostBuildResult :=
  let host := hostOf env
  let deliveryType := deliveryTypeOf cfg
  let folder := folderOf env cfg
  let log0 := postLog0 host
  if falsy folder then
    { outcome := .failPlugin ERROR_SITE_NAME_REQUIRED, written := [], results := [], log := log0 }
  else
    let cloudName := cloudNameOf env cfg
    if falsy cloudName then
      { outcome := .failBuild ERROR_CLOUD_NAME_REQUIRED, written := [], results := [],
        log := log0 ++ [(LogLevel.error, cloudinaryTag ERROR_CLOUD_NAME_REQUIRED)] }
    else if (deliveryType == "upload") && (falsy env.cloudinaryApiKey || falsy env.cloudinaryApiSecret) then
      { outcome := .failBuild ERROR_API_CREDENTIALS_REQUIRED, written := [], results := [],
        log := log0 ++ [(LogLevel.error, cloudinaryTag ERROR_API_CREDENTIALS_REQUIRED)] }
    else
      let written := postWrittenOf PO env cfg assetsIn publishDir
      let results := postResultsOf PO env cfg assetsIn publishDir
      let errors := postErrorsOf PO env cfg assetsIn publishDir
      let log1 := log0 ++
        (if errors.length > 0 then
          [(LogLevel.info, doneWithErrorsMsg errors.length),
           (LogLevel.info, errorsDump errors)]
         else [(LogLevel.info, "[Cloudinary] Done.")])
      { outcome := .success, written := written, results := results, log := log1 }

/-! ### Shared helper lemmas -/

/-- Folding an unshift over a list prepends the reversed image of the list. -/
theorem foldl_cons_reverse_map {α β : Type} (f : α → β) (l : List α) (rs : List β) :
    l.foldl (fun acc a => f a :: acc) rs = (l.map f).reverse ++ rs := by
  induction l generalizing rs with
  | nil => rfl
  | cons a t ih => simp [List.foldl_cons, ih]

/-- When the pattern is a prefix of the subject, the JS first-occurrence
replace strips exactly that prefix. -/
theorem replaceFirstList_of_isPrefixOf (s pat : List Char)
    (h : pat.isPrefixOf s = true) : replaceFirstList s pat = s.drop pat.length := by
  cases s with
  | nil =>
    cases pat with
    | nil => rfl
    | cons c cs => simp [List.isPrefixOf] at h
  | cons c rest =>
    unfold replaceFirstList
    rw [if_pos h]

/-- String version of the prefix-strip fact, stated on character data. -/
theorem jsReplaceFirst_of_isPrefixOf (f pub : String)
    (h : pub.toList.isPrefixOf f.toList = true) :
    (jsReplaceFirst f pub).toList = f.toList.drop pub.toList.length := by
  show replaceFirstList f.toList pub.toList = _
  exact replaceFirstList_of_isPrefixOf _ _ h

/-- The images-path default always resolves: the directory table contains the
`imagesPath` entry, so the destructured value is never `undefined`. -/
theorem imagesPathOf_isSome (cfg : BuildConfig) : (imagesPathOf cfg).isSome = true := by
  unfold imagesPathOf jsDefault
  cases cfg.imagesPath <;> simp [CLOUDINARY_ASSET_DIRECTORIES]

/-- Reducing onBuild to its checked continuation once the folder check passes
and the fetch-mode host skip does not fire. -/
theorem onBuild_eq_checked (O : Oracles) (env : Env) (cfg : BuildConfig) (A : BuildArgs)
    (hf : falsy (folderOf env cfg) = false)
    (hh : (falsy (hostOf env) && (deliveryTypeOf cfg == "fetch")) = false) :
    onBuild O env cfg A = onBuildChecked O env cfg A := by
  unfold onBuild
  simp [hf, hh]

/-- A successful Resolution Pass yields one record per discovered file, in
order, each with the JS-replace publish path; nothing is lost or duplicated. -/
theorem resolveImages_ok_spec (resolver : ResolveArgs → Except String CloudinaryResult)
    (dt fo : String) (up : Option String) (host : JsStr) (pub : String)
    (files : List String) (records : List AssetRecord)
    (h : resolveImages resolver dt fo up host pub files = .ok records) :
    records.length = files.length ∧
    ∀ i : Nat, (records.get? i).map AssetRecord.publishPath
      = (files.get? i).map (fun f => jsReplaceFirst f pub) := by
  induction files generalizing records with
  | nil =>
    unfold resolveImages at h
    cases h
    exact ⟨rfl, fun i => rfl⟩
  | cons image rest ih =>
    unfold resolveImages at h
    rcases hr : resolver (resolveArgsFor dt fo up host pub image) with e | c
    · rw [hr] at h; simp at h
    · rw [hr] at h
      rcases hrest : resolveImages resolver dt fo up host pub rest with e2 | recs
      · rw [hrest] at h; simp at h
      · rw [hrest] at h
        simp at h
        rcases ih recs hrest with ⟨hlen, hget⟩
        subst h
        refine ⟨by simp [hlen], fun i => ?_⟩
        cases i with
        | zero => rfl
        | succ j => simpa using hget j

/-- The checked onBuild continuation when the Resolution Pass rejects: the
catch block fails the build with the rejection message and the handler returns
with the redirect list and the asset cache untouched. -/
theorem onBuildChecked_resolution_error (O : Oracles) (env : Env) (cfg : BuildConfig)
    (A : BuildArgs) (ip : ImagesPathCfg) (e : String)
    (hc : falsy (cloudNameOf env cfg) = false)
    (hcr : ((deliveryTypeOf cfg == "upload") &&
      (falsy env.cloudinaryApiKey || falsy env.cloudinaryApiSecret)) = false)
    (hip : imagesPathOf cfg = some ip)
    (hres : resolveImages O.getCloudinaryUrl (deliveryTypeOf cfg)
      ((folderOf env cfg).getD "") cfg.uploadPreset (hostOf env) A.PUBLISH_DIR
      (findAssetsByPath O.glob A.PUBLISH_DIR ip) = .error e) :
    onBuildChecked O env cfg A =
      { outcome := .failBuild e, redirects := A.redirects, assets := A.cloudinaryAssets,
        log := (buildLog0 (hostOf env) ++
          (if (findAssetsByPath O.glob A.PUBLISH_DIR ip).length == 0 then
            [(LogLevel.warn, noImagesMsg ip), (LogLevel.info, MSG_DID_YOU_UPDATE)]
           else [])) ++ [(LogLevel.error, "Error " ++ e)] } := by
  unfold onBuildChecked
  simp [hc, hcr, hip, hres]

/-- The checked onBuild continuation when the Resolution Pass succeeds: the
cache is assigned the resolved list once, and the mode-specific emission
blocks run over the entry redirect list. -/
theorem onBuildChecked_resolution_ok (O : Oracles) (env : Env) (cfg : BuildConfig)
    (A : BuildArgs) (ip : ImagesPathCfg) (records : List AssetRecord)
    (hc : falsy (cloudNameOf env cfg) = false)
    (hcr : ((deliveryTypeOf cfg == "upload") &&
      (falsy env.cloudinaryApiKey || falsy env.cloudinaryApiSecret)) = false)
    (hip : imagesPathOf cfg = some ip)
    (hres : resolveImages O.getCloudinaryUrl (deliveryTypeOf cfg)
      ((folderOf env cfg).getD "") cfg.uploadPreset (hostOf env) A.PUBLISH_DIR
      (findAssetsByPath O.glob A.PUBLISH_DIR ip) = .ok records) :
    onBuildChecked O env cfg A =
      { outcome := .success,
        redirects :=
          (if deliveryTypeOf cfg == "fetch" then
            emitFetchRedirects O.getCloudinaryUrl cfg ((folderOf env cfg).getD "") (hostOf env)
              (if deliveryTypeOf cfg == "upload" then
                emitUploadRedirects { images := records } A.redirects
               else A.redirects)
           else
            (if deliveryTypeOf cfg == "upload" then
              emitUploadRedirects { images := records } A.redirects
             else A.redirects)),
        assets := { images := records },
        log := (buildLog0 (hostOf env) ++
          (if (findAssetsByPath O.glob A.PUBLISH_DIR ip).length == 0 then
            [(LogLevel.warn, noImagesMsg ip), (LogLevel.info, MSG_DID_YOU_UPDATE)]
           else [])) ++ [(LogLevel.info, "[Cloudinary] Done.")] } := by
  unfold onBuildChecked
  simp [hc, hcr, hip, hres]

/-! ### Concrete fixtures used by witnesses and counterexamples -/

/-- A resolver that always succeeds, returning a CDN URL derived from the
requested path. -/
def exResolveOk : ResolveArgs → Except String CloudinaryResult :=
  fun a => .ok { cloudinaryUrl := "https://res.cloudinary.com/demo/image/fetch/" ++ a.path,
                 publicId := none }

/-- A resolver that always rejects, as an upload network failure would. -/
def exResolveFail : ResolveArgs → Except String CloudinaryResult :=
  fun _ => .error "Upload failed with status 401"

/-- Oracles with an empty publish directory. -/
def exOracles : Oracles :=
  { glob := fun _ _ => [], getCloudinaryUrl := exResolveOk }

/-- Oracles discovering two image files. -/
def exOraclesTwo : Oracles :=
  { glob := fun _ _ => ["/dist/images/a.png", "/dist/images/b.png"],
    getCloudinaryUrl := exResolveOk }

/-- Oracles discovering one file whose resolution rejects. -/
def exOraclesFail : Oracles :=
  { glob := fun _ _ => ["/dist/images/a.png"], getCloudinaryUrl := exResolveFail }

/-- A fully configured production environment. -/
def exEnv : Env :=
  { context := some "production", netlifyHost := some "https://site.netlify.app",
    deployPrimeUrl := none, siteName := some "mysite",
    cloudinaryCloudName := some "democloud",
    cloudinaryApiKey := some "key123", cloudinaryApiSecret := some "secret456" }

/-- The production environment with no resolvable host. -/
def exEnvNoHost : Env := { exEnv with netlifyHost := none }

/-- The environment with no site name (and no folder input in `exCfg`). -/
def exEnvNoFolder : Env := { exEnv with siteName := none }

/-- The environment with no cloud name anywhere. -/
def exEnvNoCloud : Env := { exEnv with cloudinaryCloudName := none }

/-- The environment missing the upload API key. -/
def exEnvNoCreds : Env := { exEnv with cloudinaryApiKey := none }

/-- The empty build configuration: every input defaulted (fetch mode). -/
def exCfg : BuildConfig := {}

/-- A build configuration selecting upload mode. -/
def exCfgUpload : BuildConfig := { deliveryType := some "upload" }

/-- Handler inputs: publish directory `/dist`, no pre-existing redirects. -/
def exArgs : BuildArgs :=
  { PUBLISH_DIR := "/dist", redirects := [], cloudinaryAssets := { images := [] } }

/-! ### Claims -/

/-- C10: for every schema-accepted build configuration the destructured
`imagesPath` is never `undefined` (the `CLOUDINARY_ASSET_DIRECTORIES` lookup
supplies `/images`), so the onBuild branch throwing
`ERROR_INVALID_IMAGES_PATH` is unreachable. -/
theorem imagesPath_default_throw_unreachable (O : Oracles) (env : Env)
    (cfg : BuildConfig) (A : BuildArgs) :
    (imagesPathOf cfg).isSome = true ∧
    (onBuild O env cfg A).outcome ≠ Outcome.thrown ERROR_INVALID_IMAGES_PATH := by
  refine ⟨imagesPathOf_isSome cfg, ?_⟩
  unfold onBuild onBuildChecked
  rcases hip : imagesPathOf cfg with _ | ip
  · exact absurd (imagesPathOf_isSome cfg) (by simp [hip])
  · simp only [hip]
    split
    · simp
    · split
      · simp
      · split
        · simp
        · split
          · simp
          · split
            · simp
            · simp

/-- C6: with the folder present, fetch mode and no resolvable host, onBuild
logs the host-unknown warning and returns cleanly: success outcome, no
failure channel, no asset resolution and no redirect emission. -/
theorem host_unknown_soft_skip (O : Oracles) (env : Env) (cfg : BuildConfig)
    (A : BuildArgs)
    (hf : falsy (folderOf env cfg) = false)
    (hh : falsy (hostOf env) = true)
    (hd : deliveryTypeOf cfg = "fetch") :
    onBuild O env cfg A =
      { outcome := .success, redirects := A.redirects, assets := A.cloudinaryAssets,
        log := buildLog0 (hostOf env) ++
          [(LogLevel.warn, cloudinaryTag ERROR_NETLIFY_HOST_UNKNOWN),
           (LogLevel.info, cloudinaryTag ERROR_NETLIFY_HOST_CLI_SUPPORT)] } := by
  unfold onBuild
  simp [hf, hh, hd]

/-- Witness for C6 at a concrete non-deployed environment. -/
theorem host_unknown_soft_skip_witness :
    onBuild exOracles exEnvNoHost exCfg exArgs =
      { outcome := .success, redirects := exArgs.redirects,
        assets := exArgs.cloudinaryAssets,
        log := buildLog0 (hostOf exEnvNoHost) ++
          [(LogLevel.warn, cloudinaryTag ERROR_NETLIFY_HOST_UNKNOWN),
           (LogLevel.info, cloudinaryTag ERROR_NETLIFY_HOST_CLI_SUPPORT)] } :=
  host_unknown_soft_skip exOracles exEnvNoHost exCfg exArgs
    (by decide) (by decide) (by decide)

/-- C5: the onBuild precondition checks run in source order — folder first,
then (under fetch) the host, then the cloud name, then (under upload) the API
credentials — the first failing check determining the exit, with missing
folder and missing cloud name reported through the failure channel with their
fixed messages. -/
theorem precondition_check_order (O : Oracles) (env : Env) (cfg : BuildConfig)
    (A : BuildArgs) :
    (falsy (folderOf env cfg) = true →
      (onBuild O env cfg A).outcome = .failPlugin ERROR_SITE_NAME_REQUIRED) ∧
    (falsy (folderOf env cfg) = false →
      (falsy (hostOf env) && (deliveryTypeOf cfg == "fetch")) = true →
      (onBuild O env cfg A).outcome = .success ∧
      (onBuild O env cfg A).redirects = A.redirects) ∧
    (falsy (folderOf env cfg) = false →
      (falsy (hostOf env) && (deliveryTypeOf cfg == "fetch")) = false →
      falsy (cloudNameOf env cfg) = true →
      (onBuild O env cfg A).outcome = .failBuild ERROR_CLOUD_NAME_REQUIRED) ∧
    (falsy (folderOf env cfg) = false →
      (falsy (hostOf env) && (deliveryTypeOf cfg == "fetch")) = false →
      falsy (cloudNameOf env cfg) = false →
      (deliveryTypeOf cfg == "upload") = true →
      (falsy env.cloudinaryApiKey || falsy env.cloudinaryApiSecret) = true →
      (onBuild O env cfg A).outcome = .failBuild ERROR_API_CREDENTIALS_REQUIRED) := by
  refine ⟨fun hf => ?_, fun hf hh => ?_, fun hf hh hc => ?_, fun hf hh hc hd hcr => ?_⟩
  · unfold onBuild; simp [hf]
  · unfold onBuild; simp [hf, hh]
  · rw [onBuild_eq_checked O env cfg A hf hh]
    unfold onBuildChecked; simp [hc]
  · rw [onBuild_eq_checked O env cfg A hf hh]
    unfold onBuildChecked; simp [hc, hd, hcr]

/-- Witness for C5: each failing check exercised at a concrete input. -/
theorem precondition_check_order_witness :
    (onBuild exOracles exEnvNoFolder exCfg exArgs).outcome
        = .failPlugin ERROR_SITE_NAME_REQUIRED ∧
    (onBuild exOracles exEnvNoCloud exCfg exArgs).outcome
        = .failBuild ERROR_CLOUD_NAME_REQUIRED ∧
    (onBuild exOracles exEnvNoCreds exCfgUpload exArgs).outcome
        = .failBuild ERROR_API_CREDENTIALS_REQUIRED :=
  ⟨(precondition_check_order exOracles exEnvNoFolder exCfg exArgs).1 (by decide),
   (precondition_check_order exOracles exEnvNoCloud exCfg exArgs).2.2.1
     (by decide) (by decide) (by decide),
   (precondition_check_order exOracles exEnvNoCreds exCfgUpload exArgs).2.2.2
     (by decide) (by decide) (by decide) (by decide) (by decide)⟩

/-- C7: mode exclusivity of the preconditions — a fetch-mode run is identical
whatever the upload API credentials are (the credentials check is guarded on
upload mode), and an upload-mode run past the folder check proceeds to the
checked continuation even though the host may be unknown (the host-unknown
early return is guarded on fetch mode). -/
theorem mode_precondition_exclusivity (O : Oracles) (env : Env) (cfg : BuildConfig)
    (A : BuildArgs) (k s : JsStr) :
    (deliveryTypeOf cfg = "fetch" →
      onBuild O env cfg A =
        onBuild O { env with cloudinaryApiKey := k, cloudinaryApiSecret := s } cfg A) ∧
    (deliveryTypeOf cfg = "upload" → falsy (folderOf env cfg) = false →
      onBuild O env cfg A = onBuildChecked O env cfg A) := by
  constructor
  · intro hd
    unfold onBuild onBuildChecked
    simp [hostOf, folderOf, cloudNameOf, hd]
  · intro hd hf
    unfold onBuild
    simp [hf, hd]

/-- Witness for C7: fetch mode ignores missing credentials; upload mode with
an unknown host still reaches the checked continuation. -/
theorem mode_precondition_exclusivity_witness :
    onBuild exOracles exEnv exCfg exArgs =
      onBuild exOracles { exEnv with cloudinaryApiKey := none, cloudinaryApiSecret := none }
        exCfg exArgs ∧
    onBuild exOracles exEnvNoHost exCfgUpload exArgs =
      onBuildChecked exOracles exEnvNoHost exCfgUpload exArgs :=
  ⟨(mode_precondition_exclusivity exOracles exEnv exCfg exArgs none none).1 (by decide),
   (mode_precondition_exclusivity exOracles exEnvNoHost exCfgUpload exArgs none none).2
     (by decide) (by decide)⟩

/-- C2: any rejection in the all-assets resolution step makes the whole build
stage fail with the rejection's message, and that run emits no redirect rules
and leaves the asset cache untouched. -/
theorem resolution_error_fails_build (O : Oracles) (env : Env) (cfg : BuildConfig)
    (A : BuildArgs) (ip : ImagesPathCfg) (e : String)
    (hf : falsy (folderOf env cfg) = false)
    (hh : (falsy (hostOf env) && (deliveryTypeOf cfg == "fetch")) = false)
    (hc : falsy (cloudNameOf env cfg) = false)
    (hcr : ((deliveryTypeOf cfg == "upload") &&
      (falsy env.cloudinaryApiKey || falsy env.cloudinaryApiSecret)) = false)
    (hip : imagesPathOf cfg = some ip)
    (hres : resolveImages O.getCloudinaryUrl (deliveryTypeOf cfg)
      ((folderOf env cfg).getD "") cfg.uploadPreset (hostOf env) A.PUBLISH_DIR
      (findAssetsByPath O.glob A.PUBLISH_DIR ip) = .error e) :
    (onBuild O env cfg A).outcome = .failBuild e ∧
    (onBuild O env cfg A).redirects = A.redirects ∧
    (onBuild O env cfg A).assets = A.cloudinaryAssets := by
  rw [onBuild_eq_checked O env cfg A hf hh,
      onBuildChecked_resolution_error O env cfg A ip e hc hcr hip hres]
  exact ⟨rfl, rfl, rfl⟩

/-- Witness for C2 at a concrete rejecting resolver. -/
theorem resolution_error_fails_build_witness :
    (onBuild exOraclesFail exEnv exCfg exArgs).outcome
        = .failBuild "Upload failed with status 401" ∧
    (onBuild exOraclesFail exEnv exCfg exArgs).redirects = exArgs.redirects ∧
    (onBuild exOraclesFail exEnv exCfg exArgs).assets = exArgs.cloudinaryAssets :=
  resolution_error_fails_build exOraclesFail exEnv exCfg exArgs
    (ImagesPathCfg.str "/images") "Upload failed with status 401"
    (by decide) (by decide) (by decide) (by decide) rfl rfl

/-- The first of the two assets discovered by `exOraclesTwo`, resolved. -/
def exRecA : AssetRecord :=
  { publishPath := "/images/a.png",
    cloudinaryUrl := "https://res.cloudinary.com/demo/image/fetch//images/a.png",
    publicId := none }

/-- The second of the two assets discovered by `exOraclesTwo`, resolved. -/
def exRecB : AssetRecord :=
  { publishPath := "/images/b.png",
    cloudinaryUrl := "https://res.cloudinary.com/demo/image/fetch//images/b.png",
    publicId := none }

/-- C3: in upload mode each cached asset record contributes exactly one
unshifted rule `{from: publishPath*, to: cloudinaryUrl, 302, force}`, so the
final list is the reversed per-asset rule list on top of the entry list: the
first N entries correspond to the last N assets resolved, each pointing to
its own CDN URL. -/
theorem upload_redirect_emission (O : Oracles) (env : Env) (cfg : BuildConfig)
    (A : BuildArgs) (ip : ImagesPathCfg) (records : List AssetRecord)
    (hd : deliveryTypeOf cfg = "upload")
    (hf : falsy (folderOf env cfg) = false)
    (hc : falsy (cloudNameOf env cfg) = false)
    (hcr2 : (falsy env.cloudinaryApiKey || falsy env.cloudinaryApiSecret) = false)
    (hip : imagesPathOf cfg = some ip)
    (hres : resolveImages O.getCloudinaryUrl (deliveryTypeOf cfg)
      ((folderOf env cfg).getD "") cfg.uploadPreset (hostOf env) A.PUBLISH_DIR
      (findAssetsByPath O.glob A.PUBLISH_DIR ip) = .ok records) :
    (onBuild O env cfg A).redirects = (records.map uploadRule).reverse ++ A.redirects ∧
    ∀ i : Nat, i < records.length →
      (onBuild O env cfg A).redirects.get? i
        = (records.get? (records.length - 1 - i)).map uploadRule := by
  have hh : (falsy (hostOf env) && (deliveryTypeOf cfg == "fetch")) = false := by
    simp [hd]
  have hcr : ((deliveryTypeOf cfg == "upload") &&
      (falsy env.cloudinaryApiKey || falsy env.cloudinaryApiSecret)) = false := by
    simp [hcr2]
  have hred : (onBuild O env cfg A).redirects
      = (records.map uploadRule).reverse ++ A.redirects := by
    rw [onBuild_eq_checked O env cfg A hf hh,
        onBuildChecked_resolution_ok O env cfg A ip records hc hcr hip hres]
    simp [hd, emitUploadRedirects, foldl_cons_reverse_map]
  refine ⟨hred, fun i hi => ?_⟩
  rw [hred]
  have hi1 : i < ((records.map uploadRule).reverse).length := by
    simpa using hi
  rw [List.get?_append hi1]
  have hi2 : i < (records.map uploadRule).length := by simpa using hi
  rw [List.get?_reverse hi2]
  simp [List.get?_map]

/-- Witness for C3: two resolved assets, two rules, most recent first. -/
theorem upload_redirect_emission_witness :
    (onBuild exOraclesTwo exEnv exCfgUpload exArgs).redirects
        = ([exRecA, exRecB].map uploadRule).reverse ++ exArgs.redirects ∧
    ∀ i : Nat, i < ([exRecA, exRecB] : List AssetRecord).length →
      (onBuild exOraclesTwo exEnv exCfgUpload exArgs).redirects.get? i
        = (([exRecA, exRecB] : List AssetRecord).get?
            (([exRecA, exRecB] : List AssetRecord).length - 1 - i)).map uploadRule :=
  upload_redirect_emission exOraclesTwo exEnv exCfgUpload exArgs
    (ImagesPathCfg.str "/images") [exRecA, exRecB]
    (by decide) (by decide) (by decide) (by decide) rfl rfl

/-- Counterexample to C1 as stated: on a concrete fetch-mode run with the
default media path, the pass-through (status 200) rule ends up at index 1 and
the general redirect (status 302) rule at index 0 — the pass-through rule's
index is NOT lower, because the source unshifts the pass-through rule first
and the general rule second, leaving the general rule at the head. -/
theorem fetch_pair_order_counterexample :
    (onBuild exOracles exEnv exCfg exArgs).redirects.findIdx
        (fun r => r.status == 200) = 1 ∧
    (onBuild exOracles exEnv exCfg exArgs).redirects.findIdx
        (fun r => r.status == 302) = 0 ∧
    ¬ ((onBuild exOracles exEnv exCfg exArgs).redirects.findIdx
        (fun r => r.status == 200)
      < (onBuild exOracles exEnv exCfg exArgs).redirects.findIdx
        (fun r => r.status == 302)) := by
  refine ⟨by decide, by decide, by decide⟩

/-- An adjacent pair of list entries survives one media-path emission: the
emission prepends either nothing (resolver rejection) or exactly two rules,
shifting every existing index by zero or two. -/
theorem fetchEmitOne_pair_preserved (resolver : ResolveArgs → Except String CloudinaryResult)
    (fo : String) (up : Option String) (host : JsStr) (mp : String)
    (rs : List Redirect) (j : Nat) (a b : Redirect)
    (ha : rs.get? j = some a) (hb : rs.get? (j + 1) = some b) :
    ∃ j' : Nat, (fetchEmitOne resolver fo up host mp rs).get? j' = some a ∧
      (fetchEmitOne resolver fo up host mp rs).get? (j' + 1) = some b := by
  rcases hr : resolver (fetchArgsFor fo up host mp) with e | r
  · exact ⟨j, by simpa [fetchEmitOne, hr] using ha, by simpa [fetchEmitOne, hr] using hb⟩
  · refine ⟨j + 1 + 1, ?_, ?_⟩
    · simpa [fetchEmitOne, hr] using ha
    · simpa [fetchEmitOne, hr] using hb

/-- An adjacent pair of list entries survives the whole fold of media-path
emissions. -/
theorem fold_pair_preserved (resolver : ResolveArgs → Except String CloudinaryResult)
    (fo : String) (up : Option String) (host : JsStr) (l : List String)
    (rs : List Redirect) (j : Nat) (a b : Redirect)
    (ha : rs.get? j = some a) (hb : rs.get? (j + 1) = some b) :
    ∃ j' : Nat,
      (l.foldl (fun acc mp => fetchEmitOne resolver fo up host mp acc) rs).get? j' = some a ∧
      (l.foldl (fun acc mp => fetchEmitOne resolver fo up host mp acc) rs).get? (j' + 1) = some b := by
  induction l generalizing rs j with
  | nil => exact ⟨j, ha, hb⟩
  | cons mp0 t ih =>
    obtain ⟨j1, ha1, hb1⟩ :=
      fetchEmitOne_pair_preserved resolver fo up host mp0 rs j a b ha hb
    simpa [List.foldl_cons] using
      ih (fetchEmitOne resolver fo up host mp0 rs) j1 ha1 hb1

/-- Every media path in the fold whose resolver call succeeds contributes its
adjacent rule pair to the final list: the general 302 rule at some index and
the 200 pass-through rule immediately after it. -/
theorem fold_pair_present (resolver : ResolveArgs → Except String CloudinaryResult)
    (fo : String) (up : Option String) (host : JsStr) (l : List String)
    (rs : List Redirect) (mp : String) (r : CloudinaryResult)
    (hmp : mp ∈ l)
    (hr : resolver (fetchArgsFor fo up host mp) = .ok r) :
    ∃ j : Nat,
      (l.foldl (fun acc mp2 => fetchEmitOne resolver fo up host mp2 acc) rs).get? j
        = some (fetchRule mp r.cloudinaryUrl) ∧
      (l.foldl (fun acc mp2 => fetchEmitOne resolver fo up host mp2 acc) rs).get? (j + 1)
        = some (passThroughRule ("/" ++ pathJoin PUBLIC_ASSET_PATH mp) mp) := by
  induction l generalizing rs with
  | nil => cases hmp
  | cons mp0 t ih =>
    rw [List.foldl_cons]
    rcases List.mem_cons.mp hmp with heq | hmem
    · subst heq
      have hpair : fetchEmitOne resolver fo up host mp rs
          = fetchRule mp r.cloudinaryUrl ::
            passThroughRule ("/" ++ pathJoin PUBLIC_ASSET_PATH mp) mp :: rs := by
        simp [fetchEmitOne, hr]
      have h0 : (fetchEmitOne resolver fo up host mp rs).get? 0
          = some (fetchRule mp r.cloudinaryUrl) := by rw [hpair]; rfl
      have h1 : (fetchEmitOne resolver fo up host mp rs).get? (0 + 1)
          = some (passThroughRule ("/" ++ pathJoin PUBLIC_ASSET_PATH mp) mp) := by
        rw [hpair]; rfl
      exact fold_pair_preserved resolver fo up host t _ 0 _ _ h0 h1
    · exact ih (fetchEmitOne resolver fo up host mp0 rs) hmem

/-- The fetch emission over the directory table is the fold over the single
images directory's media paths. -/
theorem emitFetchRedirects_eq (resolver : ResolveArgs → Except String CloudinaryResult)
    (cfg : BuildConfig) (folderStr : String) (host : JsStr) (rs : List Redirect) :
    emitFetchRedirects resolver cfg folderStr host rs
      = (mediaPathsOf (cfgDynLookup cfg "imagesPath") "/images").foldl
          (fun acc mp => fetchEmitOne resolver folderStr cfg.uploadPreset host mp acc) rs := by
  rfl

/-- C1 amended: in fetch mode, for every configured media path (the
`imagesPath` input normalized to a list, default `/images`) whose fetch-URL
resolution succeeds, redirect emission places the general 302 redirect rule at
some index j and the 200 pass-through rule immediately after it at index j+1 —
the general rule gets the LOWER index, because the source unshifts the
pass-through rule first and the general rule on top of it; loop avoidance
rests on the two `from` patterns being disjoint, not on the pass-through rule
coming first. -/
theorem fetch_pair_order_amended (O : Oracles) (env : Env) (cfg : BuildConfig)
    (A : BuildArgs) (records : List AssetRecord) (mp : String) (r : CloudinaryResult)
    (hd : deliveryTypeOf cfg = "fetch")
    (hf : falsy (folderOf env cfg) = false)
    (hhost : falsy (hostOf env) = false)
    (hc : falsy (cloudNameOf env cfg) = false)
    (hres : resolveImages O.getCloudinaryUrl (deliveryTypeOf cfg)
      ((folderOf env cfg).getD "") cfg.uploadPreset (hostOf env) A.PUBLISH_DIR
      (discoveredImagesOf O cfg A) = .ok records)
    (hmp : mp ∈ mediaPathsOf (cfgDynLookup cfg "imagesPath") "/images")
    (hr : O.getCloudinaryUrl
      (fetchArgsFor ((folderOf env cfg).getD "") cfg.uploadPreset (hostOf env) mp)
      = .ok r) :
    ∃ j : Nat,
      (onBuild O env cfg A).redirects.get? j = some (fetchRule mp r.cloudinaryUrl) ∧
      (onBuild O env cfg A).redirects.get? (j + 1)
        = some (passThroughRule ("/" ++ pathJoin PUBLIC_ASSET_PATH mp) mp) := by
  obtain ⟨ip, hip⟩ : ∃ ip, imagesPathOf cfg = some ip :=
    Option.isSome_iff_exists.mp (imagesPathOf_isSome cfg)
  have hdisc : discoveredImagesOf O cfg A = findAssetsByPath O.glob A.PUBLISH_DIR ip := by
    unfold discoveredImagesOf
    rw [hip]
  rw [hdisc] at hres
  have hh : (falsy (hostOf env) && (deliveryTypeOf cfg == "fetch")) = false := by
    simp [hhost]
  have hcr : ((deliveryTypeOf cfg == "upload") &&
      (falsy env.cloudinaryApiKey || falsy env.cloudinaryApiSecret)) = false := by
    simp [hd]
  have hredir : (onBuild O env cfg A).redirects
      = emitFetchRedirects O.getCloudinaryUrl cfg ((folderOf env cfg).getD "")
          (hostOf env) A.redirects := by
    rw [onBuild_eq_checked O env cfg A hf hh,
        onBuildChecked_resolution_ok O env cfg A ip records hc hcr hip hres]
    simp [hd]
  rw [hredir, emitFetchRedirects_eq]
  exact fold_pair_present O.getCloudinaryUrl ((folderOf env cfg).getD "")
    cfg.uploadPreset (hostOf env)
    (mediaPathsOf (cfgDynLookup cfg "imagesPath") "/images") A.redirects mp r hmp hr

/-- A build configuration with two configured media paths. -/
def exCfgTwoPaths : BuildConfig :=
  { imagesPath := some (ImagesPathCfg.arr ["/images", "/photos"]) }

/-- Witness for the amended C1: a run with an array imagesPath, non-empty
discovery and a non-default media path still gets its adjacent pair with the
general rule first. -/
theorem fetch_pair_order_amended_witness :
    ∃ j : Nat,
      (onBuild exOraclesTwo exEnv exCfgTwoPaths exArgs).redirects.get? j
        = some (fetchRule "/photos"
            ("https://res.cloudinary.com/demo/image/fetch/" ++
              ((jsTemplate (hostOf exEnv) ++ ("/" ++ pathJoin PUBLIC_ASSET_PATH "/photos"))
                ++ "/:splat"))) ∧
      (onBuild exOraclesTwo exEnv exCfgTwoPaths exArgs).redirects.get? (j + 1)
        = some (passThroughRule ("/" ++ pathJoin PUBLIC_ASSET_PATH "/photos") "/photos") :=
  fetch_pair_order_amended exOraclesTwo exEnv exCfgTwoPaths exArgs
    [exRecA, exRecB, exRecA, exRecB] "/photos"
    { cloudinaryUrl := "https://res.cloudinary.com/demo/image/fetch/" ++
        ((jsTemplate (hostOf exEnv) ++ ("/" ++ pathJoin PUBLIC_ASSET_PATH "/photos"))
          ++ "/:splat"),
      publicId := none }
    (by decide) (by decide) (by decide) (by decide) rfl (by decide) rfl

/-- C8: on a successful Resolution Pass the cache's images entry is assigned
once with the fully resolved list: one record per discovered file, in
discovery order, nothing lost or duplicated, each record's publish path being
the file path with the first occurrence of the publish directory removed —
which strips the publish-directory prefix whenever the path starts with it. -/
theorem asset_cache_single_assignment (O : Oracles) (env : Env) (cfg : BuildConfig)
    (A : BuildArgs) (ip : ImagesPathCfg) (records : List AssetRecord)
    (hf : falsy (folderOf env cfg) = false)
    (hh : (falsy (hostOf env) && (deliveryTypeOf cfg == "fetch")) = false)
    (hc : falsy (cloudNameOf env cfg) = false)
    (hcr : ((deliveryTypeOf cfg == "upload") &&
      (falsy env.cloudinaryApiKey || falsy env.cloudinaryApiSecret)) = false)
    (hip : imagesPathOf cfg = some ip)
    (hres : resolveImages O.getCloudinaryUrl (deliveryTypeOf cfg)
      ((folderOf env cfg).getD "") cfg.uploadPreset (hostOf env) A.PUBLISH_DIR
      (findAssetsByPath O.glob A.PUBLISH_DIR ip) = .ok records) :
    (onBuild O env cfg A).assets = { images := records } ∧
    records.length = (findAssetsByPath O.glob A.PUBLISH_DIR ip).length ∧
    (∀ i : Nat, (records.get? i).map AssetRecord.publishPath
      = ((findAssetsByPath O.glob A.PUBLISH_DIR ip).get? i).map
          (fun f => jsReplaceFirst f A.PUBLISH_DIR)) ∧
    (∀ i : Nat, ∀ f : String,
      (findAssetsByPath O.glob A.PUBLISH_DIR ip).get? i = some f →
      A.PUBLISH_DIR.toList.isPrefixOf f.toList = true →
      (records.get? i).map (fun rec => rec.publishPath.toList)
        = some (f.toList.drop A.PUBLISH_DIR.toList.length)) := by
  obtain ⟨hlen, hget⟩ := resolveImages_ok_spec O.getCloudinaryUrl (deliveryTypeOf cfg)
    ((folderOf env cfg).getD "") cfg.uploadPreset (hostOf env) A.PUBLISH_DIR
    (findAssetsByPath O.glob A.PUBLISH_DIR ip) records hres
  have hassets : (onBuild O env cfg A).assets = { images := records } := by
    rw [onBuild_eq_checked O env cfg A hf hh,
        onBuildChecked_resolution_ok O env cfg A ip records hc hcr hip hres]
  refine ⟨hassets, hlen, hget, fun i f hfi hpre => ?_⟩
  have hi := hget i
  rw [hfi] at hi
  cases hri : records.get? i with
  | none => rw [hri] at hi; simp at hi
  | some rec =>
    rw [hri] at hi
    simp at hi
    show some (rec.publishPath.toList) = some (f.toList.drop A.PUBLISH_DIR.toList.length)
    rw [hi, jsReplaceFirst_of_isPrefixOf f A.PUBLISH_DIR hpre]

/-- Witness for C8: two discovered files under `/dist`, two records with the
prefix-stripped publish paths. -/
theorem asset_cache_single_assignment_witness :
    (onBuild exOraclesTwo exEnv exCfg exArgs).assets
        = { images := [exRecA, exRecB] } ∧
    ([exRecA, exRecB] : List AssetRecord).length
        = (findAssetsByPath exOraclesTwo.glob exArgs.PUBLISH_DIR
            (ImagesPathCfg.str "/images")).length ∧
    (∀ i : Nat, (([exRecA, exRecB] : List AssetRecord).get? i).map AssetRecord.publishPath
      = ((findAssetsByPath exOraclesTwo.glob exArgs.PUBLISH_DIR
          (ImagesPathCfg.str "/images")).get? i).map
            (fun f => jsReplaceFirst f exArgs.PUBLISH_DIR)) ∧
    (∀ i : Nat, ∀ f : String,
      (findAssetsByPath exOraclesTwo.glob exArgs.PUBLISH_DIR
        (ImagesPathCfg.str "/images")).get? i = some f →
      exArgs.PUBLISH_DIR.toList.isPrefixOf f.toList = true →
      (([exRecA, exRecB] : List AssetRecord).get? i).map (fun rec => rec.publishPath.toList)
        = some (f.toList.drop exArgs.PUBLISH_DIR.toList.length)) :=
  asset_cache_single_assignment exOraclesTwo exEnv exCfg exArgs
    (ImagesPathCfg.str "/images") [exRecA, exRecB]
    (by decide) (by decide) (by decide) (by decide) rfl rfl

/-- Folding the glob over patterns that all match nothing yields nothing. -/
theorem foldr_glob_empty (globFn : String → String → List String) (baseDir : String)
    (l : List String) (h : ∀ pat ∈ l, globFn baseDir pat = []) :
    l.foldr (fun pat acc => globFn baseDir pat ++ acc) [] = [] := by
  induction l with
  | nil => rfl
  | cons p t ih =>
    simp [List.foldr_cons, h p (List.mem_cons_self p t),
          ih (fun pat hp => h pat (List.mem_cons_of_mem p hp))]

/-- C9: when every configured pattern matches zero files, discovery returns
the empty sequence without an error, and onBuild logs the no-images warning
and completes successfully with zero cached assets. -/
theorem empty_discovery_warns_and_continues (O : Oracles) (env : Env)
    (cfg : BuildConfig) (A : BuildArgs) (ip : ImagesPathCfg)
    (hf : falsy (folderOf env cfg) = false)
    (hh : (falsy (hostOf env) && (deliveryTypeOf cfg == "fetch")) = false)
    (hc : falsy (cloudNameOf env cfg) = false)
    (hcr : ((deliveryTypeOf cfg == "upload") &&
      (falsy env.cloudinaryApiKey || falsy env.cloudinaryApiSecret)) = false)
    (hip : imagesPathOf cfg = some ip)
    (hglob : ∀ pat ∈ patternsOf ip, O.glob A.PUBLISH_DIR pat = []) :
    findAssetsByPath O.glob A.PUBLISH_DIR ip = [] ∧
    (onBuild O env cfg A).outcome = .success ∧
    (onBuild O env cfg A).assets = { images := [] } ∧
    (LogLevel.warn, noImagesMsg ip) ∈ (onBuild O env cfg A).log := by
  have hfind : findAssetsByPath O.glob A.PUBLISH_DIR ip = [] :=
    foldr_glob_empty O.glob A.PUBLISH_DIR (patternsOf ip) hglob
  have hres : resolveImages O.getCloudinaryUrl (deliveryTypeOf cfg)
      ((folderOf env cfg).getD "") cfg.uploadPreset (hostOf env) A.PUBLISH_DIR
      (findAssetsByPath O.glob A.PUBLISH_DIR ip) = .ok [] := by
    rw [hfind]
    rfl
  rw [onBuild_eq_checked O env cfg A hf hh,
      onBuildChecked_resolution_ok O env cfg A ip [] hc hcr hip hres]
  refine ⟨hfind, rfl, rfl, ?_⟩
  simp [hfind]

/-- Witness for C9 with a glob oracle matching nothing. -/
theorem empty_discovery_warns_and_continues_witness :
    findAssetsByPath exOracles.glob exArgs.PUBLISH_DIR (ImagesPathCfg.str "/images") = [] ∧
    (onBuild exOracles exEnv exCfg exArgs).outcome = .success ∧
    (onBuild exOracles exEnv exCfg exArgs).assets = { images := [] } ∧
    (LogLevel.warn, noImagesMsg (ImagesPathCfg.str "/images"))
        ∈ (onBuild exOracles exEnv exCfg exArgs).log :=
  empty_discovery_warns_and_continues exOracles exEnv exCfg exArgs
    (ImagesPathCfg.str "/images")
    (by decide) (by decide) (by decide) (by decide) rfl (by decide)

/-- Projecting the page path back out of the Rewrite Pass results returns the
discovered page list unchanged. -/
theorem map_processPage_results_fst (PO : PostOracles) (ctx : RewriteContext)
    (l : List String) :
    ((l.map (processPage PO ctx)).map (fun pr => (pr.1, pr.2.2))).map Prod.fst = l := by
  induction l with
  | nil => rfl
  | cons p t ih =>
    simp only [List.map_cons, ih, processPage]

/-- Projecting the page path back out of the written-documents list returns
the discovered page list unchanged. -/
theorem map_processPage_written_fst (PO : PostOracles) (ctx : RewriteContext)
    (l : List String) :
    ((l.map (processPage PO ctx)).map (fun pr => (pr.1, pr.2.1))).map Prod.fst = l := by
  induction l with
  | nil => rfl
  | cons p t ih =>
    simp only [List.map_cons, ih, processPage]

/-- The onPostBuild run once its precondition checks pass. -/
theorem onPostBuild_run (PO : PostOracles) (env : Env) (cfg : BuildConfig)
    (assetsIn : Assets) (pubDir : String)
    (hf : falsy (folderOf env cfg) = false)
    (hc : falsy (cloudNameOf env cfg) = false)
    (hcr : ((deliveryTypeOf cfg == "upload") &&
      (falsy env.cloudinaryApiKey || falsy env.cloudinaryApiSecret)) = false) :
    onPostBuild PO env cfg assetsIn pubDir =
      { outcome := .success,
        written := postWrittenOf PO env cfg assetsIn pubDir,
        results := postResultsOf PO env cfg assetsIn pubDir,
        log := postLog0 (hostOf env) ++
          (if (postErrorsOf PO env cfg assetsIn pubDir).length > 0 then
            [(LogLevel.info, doneWithErrorsMsg (postErrorsOf PO env cfg assetsIn pubDir).length),
             (LogLevel.info, errorsDump (postErrorsOf PO env cfg assetsIn pubDir))]
           else [(LogLevel.info, "[Cloudinary] Done.")]) } := by
  unfold onPostBuild
  simp [hf, hc, hcr]

/-- C4: once its precondition checks pass, onPostBuild always succeeds —
every HTML document under the publish directory is processed and written
back, per-document errors are accumulated in the results, and a non-zero
error count only produces the summary line in the build log (no failure
channel is invoked on that path). -/
theorem rewrite_pass_never_fails_build (PO : PostOracles) (env : Env)
    (cfg : BuildConfig) (assetsIn : Assets) (pubDir : String)
    (hf : falsy (folderOf env cfg) = false)
    (hc : falsy (cloudNameOf env cfg) = false)
    (hcr : ((deliveryTypeOf cfg == "upload") &&
      (falsy env.cloudinaryApiKey || falsy env.cloudinaryApiSecret)) = false) :
    (onPostBuild PO env cfg assetsIn pubDir).outcome = .success ∧
    (onPostBuild PO env cfg assetsIn pubDir).results.map Prod.fst
        = PO.glob (pubDir ++ "/**/*.html") ∧
    (onPostBuild PO env cfg assetsIn pubDir).written.map Prod.fst
        = PO.glob (pubDir ++ "/**/*.html") ∧
    (0 < (postErrorsOf PO env cfg assetsIn pubDir).length →
      (LogLevel.info, doneWithErrorsMsg (postErrorsOf PO env cfg assetsIn pubDir).length)
        ∈ (onPostBuild PO env cfg assetsIn pubDir).log) := by
  rw [onPostBuild_run PO env cfg assetsIn pubDir hf hc hcr]
  refine ⟨rfl, ?_, ?_, ?_⟩
  · exact map_processPage_results_fst PO (rewriteContextOf env cfg assetsIn pubDir)
      (PO.glob (pubDir ++ "/**/*.html"))
  · exact map_processPage_written_fst PO (rewriteContextOf env cfg assetsIn pubDir)
      (PO.glob (pubDir ++ "/**/*.html"))
  · intro h
    simp [h]

/-- A Rewrite Pass fixture: two pages, each reporting one rewrite error. -/
def exPostOracles : PostOracles :=
  { glob := fun _ => ["/dist/index.html", "/dist/about.html"],
    read := fun p => p ++ "-content",
    updateHtmlImagesToCloudinary := fun h _ => (h ++ "-rewritten", ["image not found"]) }

/-- Witness for C4: two documents with rewrite errors still yield a
successful pass with both documents processed. -/
theorem rewrite_pass_never_fails_build_witness :
    (onPostBuild exPostOracles exEnv exCfg { images := [] } "/dist").outcome
        = .success ∧
    (onPostBuild exPostOracles exEnv exCfg { images := [] } "/dist").results.map Prod.fst
        = exPostOracles.glob ("/dist" ++ "/**/*.html") ∧
    (onPostBuild exPostOracles exEnv exCfg { images := [] } "/dist").written.map Prod.fst
        = exPostOracles.glob ("/dist" ++ "/**/*.html") ∧
    (0 < (postErrorsOf exPostOracles exEnv exCfg { images := [] } "/dist").length →
      (LogLevel.info, doneWithErrorsMsg
        (postErrorsOf exPostOracles exEnv exCfg { images := [] } "/dist").length)
        ∈ (onPostBuild exPostOracles exEnv exCfg { images := [] } "/dist").log) :=
  rewrite_pass_never_fails_build exPostOracles exEnv exCfg { images := [] } "/dist"
    (by decide) (by decide) (by decide)

end Cloudinary
